import Mathlib

/-!
Shallow embedding of the RTMP stream-control backend (`main.py`).

The program is a FastAPI service around one `StreamManager` object holding
a playback queue, an active-session flag, the current video, a session
start timestamp, a handle to an external ffmpeg subprocess, and a stop
flag.  The embedding below translates the manager's methods and the
relevant HTTP endpoints into pure Lean functions over an explicit
`MState` record.  External effects (file persistence, logging, process
spawning, sleeping, signalling) are recorded as an event trace `Ev`;
nondeterminism of the environment (does the video file exist, does the
spawn succeed, with which code does the process exit, is a stop requested
while the loop blocks in `wait`) is supplied through per-iteration
`VideoEnv` oracles.  Time is modelled in whole units (`Nat` for clock
readings, `Int` for the reported uptime, matching the `int(...)` cast in
the source).
-/

/-- Trace events: the externally observable actions of the manager
(`print` logging, queue persistence, process control, sleeping). -/
inductive Ev where
  | saveQueue (q : List String)
  | logQueueEmpty
  | logNotFound (id : String)
  | logStarting (id : String)
  | spawn (cmd : List String)
  | spawnFail
  | logFFmpegError (id : String)
  | logStreamError (id : String)
  | sleep (n : Nat)
  | terminate
  | wait (timeout : Nat)
  | timeoutExpired
  | kill
  | logStopError (m : String)
  | logSkipError (m : String)
deriving DecidableEq, Repr

/-- State of the `StreamManager` object (fields of `StreamManager.__init__`).
`spawned_loops` counts how many times `start_stream` has called
`threading.Thread(...).start()` on a fresh `_stream_loop` thread; the body
of a spawned loop runs later (see `streamLoop`), not at spawn time. -/
structure MState where
  process : Option Nat
  is_active : Bool
  current_video_id : Option String
  start_time : Option Nat
  queue : List String
  should_stop : Bool
  spawned_loops : Nat
deriving DecidableEq, Repr

/-- Manager state right after `__init__` with `loaded` the queue read from
`queue.json` (empty file or no file gives `[]`). -/
def initManager (loaded : List String) : MState :=
  { process := none
    is_active := false
    current_video_id := none
    start_time := none
    queue := loaded
    should_stop := false
    spawned_loops := 0 }

/-- The settings dict loaded from `settings.json`.  Each field is optional
because the JSON file may lack keys; `_stream_video` indexes the dict and
raises `KeyError` on a missing key. -/
structure SettingsDict where
  rtmp_url : Option String
  stream_key : Option String
  bitrate : Option Nat
  resolution : Option String
  fps : Option Nat
deriving DecidableEq, Repr

/-- True when every key `_stream_video` reads is present in the settings
dict, i.e. the dict lookups in lines 159-163 of the source cannot raise. -/
def settingsComplete (sd : SettingsDict) : Bool :=
  sd.rtmp_url.isSome && sd.stream_key.isSome && sd.bitrate.isSome &&
    sd.resolution.isSome && sd.fps.isSome

/-- The ffmpeg command list built in `_stream_video` (source lines 166-184). -/
def buildCmd (videoPath : String) (rtmp_url stream_key : String)
    (bitrate : Nat) (resolution : String) (fps : Nat) : List String :=
  ["ffmpeg", "-re", "-i", videoPath,
   "-c:v", "libx264",
   "-preset", "veryfast",
   "-b:v", toString bitrate ++ "k",
   "-maxrate", toString bitrate ++ "k",
   "-bufsize", toString (bitrate * 2) ++ "k",
   "-pix_fmt", "yuv420p",
   "-g", "50",
   "-s", resolution,
   "-r", toString fps,
   "-c:a", "aac",
   "-b:a", "128k",
   "-ar", "44100",
   "-f", "flv",
   rtmp_url ++ "/" ++ stream_key]

/-- `StreamManager.add_to_queue` (source lines 97-102): append only when
absent, persisting on the mutation. -/
def add_to_queue (st : MState) (video_id : String) : MState × List Ev :=
  if video_id ∈ st.queue then (st, [])
  else
    let q := st.queue ++ [video_id]
    ({ st with queue := q }, [Ev.saveQueue q])

/-- `StreamManager.remove_from_queue` (source lines 104-109): Python
`list.remove` deletes the first occurrence, i.e. `List.erase`. -/
def remove_from_queue (st : MState) (video_id : String) : MState × List Ev :=
  if video_id ∈ st.queue then
    let q := st.queue.erase video_id
    ({ st with queue := q }, [Ev.saveQueue q])
  else (st, [])

/-- `StreamManager.get_next_video` (source lines 111-118): pop the head
and persist, or return `none` on an empty queue. -/
def get_next_video (st : MState) : Option String × MState × List Ev :=
  match st.queue with
  | [] => (none, st, [])
  | v :: rest => (some v, { st with queue := rest }, [Ev.saveQueue rest])

/-- Shape of the dict returned by `StreamManager.get_status`, mirroring
the `StreamStatus` pydantic model of the source. -/
structure StatusSnap where
  isActive : Bool
  currentVideoId : Option String
  uptime : Int
  status : String
  queue : List String
  viewerCount : Nat
deriving DecidableEq, Repr

/-- `StreamManager.get_status` (source lines 248-261).  Note the Python
truthiness test `if self.start_time`: a start time of `None` or `0`
yields uptime `0`; otherwise uptime is `int(now - start_time)`.  The
queue is returned as a copy and `viewerCount` is the literal `0` from
the source (a placeholder, per its comment). -/
def get_status (st : MState) (now : Nat) : StatusSnap :=
  { isActive := st.is_active
    currentVideoId := st.current_video_id
    uptime :=
      match st.start_time with
      | some t => if t = 0 then 0 else (now : Int) - (t : Int)
      | none => 0
    status := if st.is_active then "streaming" else "idle"
    queue := st.queue
    viewerCount := 0 }

/-- Per-video environment oracle for one iteration of `_stream_loop`:
whether `video_path.exists()` holds, the `time.time()` reading taken when
the session is marked, whether `subprocess.Popen` succeeds, the exit code
`wait()` returns, and whether a concurrent `stop_stream` sets
`should_stop` while the loop blocks in `wait()`. -/
structure VideoEnv where
  fileExists : Bool := true
  now : Nat := 0
  spawnOk : Bool := true
  returncode : Int := 0
  stopDuringWait : Bool := false
deriving DecidableEq, Repr

/-- Environment used when the oracle list runs out of entries. -/
def defaultVideoEnv : VideoEnv := {}

/-- Result of a completed `_stream_video` call: the values of the session
fields it leaves behind, plus its trace.  `_stream_video` never touches
the queue. -/
structure SVBody where
  process : Option Nat
  is_active : Bool
  current_video_id : Option String
  start_time : Option Nat
  should_stop : Bool
  trace : List Ev
deriving DecidableEq, Repr

/-- `StreamManager._stream_video` (source lines 157-215).  Returns `none`
when the settings-dict lookups of lines 159-163 raise `KeyError` (a
missing key), which happens before any state mutation; otherwise `some`
of the resulting session fields:
* lines 188-192: set `current_video_id`, set `is_active := true`, set
  `start_time` to `now` only if it was `None`;
* line 195: `Popen` - on success the handle is held, on failure the
  exception is caught by the `except` of line 209 and only logged;
* line 203: `wait()` - a concurrent stop may set `should_stop` here;
* lines 205-207: a non-zero exit code is logged unless `should_stop`;
* lines 212-215 (`finally`): `process := None`, `current_video_id := None`. -/
def streamVideo (videoId : String) (sd : SettingsDict)
    (start_time : Option Nat) (should_stop : Bool) (env : VideoEnv) :
    Option SVBody :=
  match sd.rtmp_url, sd.stream_key, sd.bitrate, sd.resolution, sd.fps with
  | some url, some key, some br, some res, some fps =>
    let cmd := buildCmd ("videos/" ++ videoId) url key br res fps
    let st1 : Option Nat := some (start_time.getD env.now)
    if env.spawnOk then
      let ss := should_stop || env.stopDuringWait
      let errTr := if env.returncode ≠ 0 && !ss then [Ev.logFFmpegError videoId] else []
      some { process := none
             is_active := true
             current_video_id := none
             start_time := st1
             should_stop := ss
             trace := [Ev.logStarting videoId, Ev.spawn cmd] ++ errTr }
    else
      some { process := none
             is_active := true
             current_video_id := none
             start_time := st1
             should_stop := should_stop
             trace := [Ev.logStarting videoId, Ev.spawnFail] }
  | _, _, _, _, _ => none

/-- Session-field reset `is_active := False; current_video_id := None;
start_time := None`, performed under the lock both when `_stream_loop`
exits, whatever the reason (source lines 151-155), and at the end of
`stop_stream` (source lines 232-235). -/
def resetSession (st : MState) : MState :=
  { st with is_active := false, current_video_id := none, start_time := none }

/-- Body of `StreamManager._stream_loop` (source lines 130-155), with the
manager's queue additionally threaded as an explicit first argument so
that the recursion is structural: every iteration pops the queue head, so
the queue itself is the decreasing measure, and the invariant that the
threaded list equals `st.queue` is maintained at every recursive call
(`streamLoop` below instantiates it with the manager's queue).  Each
iteration re-checks `should_stop`, pops the head (inlining
`get_next_video`, whose persistence shows up as the `saveQueue` event),
then applies the truthiness test of line 135, `if not video_id: break`:
it fires on `None` (empty queue, the `[]` case here) and also on a popped
empty-string identifier, in which case the program likewise logs
"Queue is empty. Stopping stream." and breaks - the session is reset and
the rest of the queue stays unplayed (note the pop and its `saveQueue`
already happened).  A surviving entry whose file is missing is skipped;
otherwise `_stream_video` runs; an exception escaping `_stream_video`
(missing settings key) is caught by the `except` of line 147, logged, and
followed by `time.sleep(1)` before the next iteration. -/
def streamLoopGo (sd : SettingsDict) :
    List String → MState → List VideoEnv → MState × List Ev
  | [], st, _ =>
    if st.should_stop then (resetSession st, [])
    else (resetSession st, [Ev.logQueueEmpty])
  | vid :: rest, st, envs =>
    if st.should_stop then (resetSession st, [])
    else
      let st1 : MState := { st with queue := rest }
      if vid = "" then (resetSession st1, [Ev.saveQueue rest, Ev.logQueueEmpty])
      else
      let env := envs.headD defaultVideoEnv
      if env.fileExists = false then
        let r := streamLoopGo sd rest st1 envs.tail
        (r.1, Ev.saveQueue rest :: Ev.logNotFound vid :: r.2)
      else
        match streamVideo vid sd st1.start_time st1.should_stop env with
        | none =>
          let r := streamLoopGo sd rest st1 envs.tail
          (r.1, Ev.saveQueue rest :: Ev.logStreamError vid :: Ev.sleep 1 :: r.2)
        | some b =>
          let st2 : MState :=
            { st1 with process := b.process, is_active := b.is_active,
                       current_video_id := b.current_video_id,
                       start_time := b.start_time, should_stop := b.should_stop }
          let r := streamLoopGo sd rest st2 envs.tail
          (r.1, Ev.saveQueue rest :: (b.trace ++ r.2))

/-- One full run of `StreamManager._stream_loop` over the manager state
`st`, with `envs` supplying the per-iteration environment. -/
def streamLoop (sd : SettingsDict) (st : MState) (envs : List VideoEnv) :
    MState × List Ev :=
  streamLoopGo sd st.queue st envs

/-- `StreamManager.start_stream` (source lines 120-128): raise when the
active flag is already set (caught by the endpoint as a 500), otherwise
clear `should_stop`, build a daemon thread on `_stream_loop` and call
`.start()` on it.  Spawning increments `spawned_loops`; the spawned
loop's body runs later (`streamLoop`), not inside this call, and this
call itself never touches `is_active`, the queue or the lock. -/
def startStreamMgr (st : MState) : Except String MState :=
  if st.is_active then Except.error "Stream is already active"
  else Except.ok { st with should_stop := false, spawned_loops := st.spawned_loops + 1 }

/-- Outcome of the process-control block shared by `stop_stream` and
`skip_current`: how `terminate()` / `wait(timeout=5)` / `kill()` behave
on the live handle. -/
inductive TermBehavior where
  | exitsInGrace
  | timeoutThenKillOk
  | timeoutThenKillRaises (msg : String)
  | terminateRaises (msg : String)
deriving DecidableEq, Repr

/-- Result of a manager method that may let a Python exception escape:
the state left behind (mutations before the raise persist), the trace,
and the escaped exception message, if any. -/
structure OpRes where
  st : MState
  trace : List Ev
  raised : Option String
deriving DecidableEq, Repr

/-- `StreamManager.stop_stream` (source lines 217-235): set `should_stop`;
if a process handle is held, `terminate()` then `wait(timeout=5)`;
on `TimeoutExpired` escalate to `kill()` - an exception raised by that
`kill()` is NOT caught by the sibling `except Exception` clause and
escapes the method (the `finally` still clears the handle, but the
final session-field reset of lines 232-235 is skipped); any other
exception is caught and logged.  On every non-escaping path the session
fields are reset. -/
def stopStreamMgr (st : MState) (tb : TermBehavior) : OpRes :=
  let st1 : MState := { st with should_stop := true }
  match st1.process with
  | none =>
    { st := resetSession st1
      trace := []
      raised := none }
  | some _ =>
    match tb with
    | TermBehavior.exitsInGrace =>
      { st := resetSession { st1 with process := none }
        trace := [Ev.terminate, Ev.wait 5]
        raised := none }
    | TermBehavior.timeoutThenKillOk =>
      { st := resetSession { st1 with process := none }
        trace := [Ev.terminate, Ev.wait 5, Ev.timeoutExpired, Ev.kill]
        raised := none }
    | TermBehavior.timeoutThenKillRaises m =>
      { st := { st1 with process := none }
        trace := [Ev.terminate, Ev.wait 5, Ev.timeoutExpired, Ev.kill]
        raised := some m }
    | TermBehavior.terminateRaises m =>
      { st := resetSession { st1 with process := none }
        trace := [Ev.terminate, Ev.logStopError m]
        raised := none }

/-- `StreamManager.skip_current` (source lines 237-246): same
terminate/wait/kill block on the live handle, but with no `finally` and
no session-field mutation at all - the method changes no manager field;
an exception from the escalated `kill()` escapes here too. -/
def skipCurrentMgr (st : MState) (tb : TermBehavior) : OpRes :=
  match st.process with
  | none => { st := st, trace := [], raised := none }
  | some _ =>
    match tb with
    | TermBehavior.exitsInGrace =>
      { st := st, trace := [Ev.terminate, Ev.wait 5], raised := none }
    | TermBehavior.timeoutThenKillOk =>
      { st := st, trace := [Ev.terminate, Ev.wait 5, Ev.timeoutExpired, Ev.kill], raised := none }
    | TermBehavior.timeoutThenKillRaises m =>
      { st := st, trace := [Ev.terminate, Ev.wait 5, Ev.timeoutExpired, Ev.kill], raised := some m }
    | TermBehavior.terminateRaises m =>
      { st := st, trace := [Ev.terminate, Ev.logSkipError m], raised := none }

deriving instance DecidableEq for Except

/-- An HTTP error response raised via `HTTPException`. -/
structure HTTPErrorResp where
  status_code : Nat
  detail : String
deriving DecidableEq, Repr

/-- Result of an endpoint handler: the manager state afterwards, the
trace, and either the success-message body or the `HTTPException`. -/
structure EPRes where
  st : MState
  trace : List Ev
  resp : Except HTTPErrorResp String
deriving DecidableEq, Repr

/-- `POST /stream/start` (source lines 423-439): reject with 400 when
`stream_manager.is_active` is truthy, reject with 400 when the queue is
empty, otherwise load settings and call `start_stream`, converting a
raised exception into a 500.  Neither check takes the manager's lock. -/
def startStreamEndpoint (st : MState) : EPRes :=
  if st.is_active then
    { st := st, trace := [], resp := Except.error ⟨400, "Stream is already active"⟩ }
  else if st.queue.isEmpty then
    { st := st, trace := [],
      resp := Except.error ⟨400, "Queue is empty. Add videos to queue first."⟩ }
  else
    match startStreamMgr st with
    | Except.ok st1 =>
      { st := st1, trace := [], resp := Except.ok "Stream started successfully" }
    | Except.error e =>
      { st := st, trace := [], resp := Except.error ⟨500, "Error starting stream: " ++ e⟩ }

/-- `POST /stream/stop` (source lines 441-452): 400 when no session is
active, otherwise run `stop_stream`, converting an escaping exception
into a 500 (state mutations made before the raise persist). -/
def stopStreamEndpoint (st : MState) (tb : TermBehavior) : EPRes :=
  if st.is_active then
    let r := stopStreamMgr st tb
    match r.raised with
    | none => { st := r.st, trace := r.trace, resp := Except.ok "Stream stopped successfully" }
    | some m =>
      { st := r.st, trace := r.trace,
        resp := Except.error ⟨500, "Error stopping stream: " ++ m⟩ }
  else
    { st := st, trace := [], resp := Except.error ⟨400, "No active stream to stop"⟩ }

/-- `POST /stream/skip` (source lines 454-465): 400 when no session is
active, otherwise run `skip_current`, converting an escaping exception
into a 500. -/
def skipEndpoint (st : MState) (tb : TermBehavior) : EPRes :=
  if st.is_active then
    let r := skipCurrentMgr st tb
    match r.raised with
    | none => { st := r.st, trace := r.trace, resp := Except.ok "Skipped to next video" }
    | some m =>
      { st := r.st, trace := r.trace,
        resp := Except.error ⟨500, "Error skipping video: " ++ m⟩ }
  else
    { st := st, trace := [], resp := Except.error ⟨400, "No active stream"⟩ }

/-- A queue operation issued by the request layer: `POST /queue/add`
(`add_to_queue`), `DELETE /queue/remove` (`remove_from_queue`), or the
loop's own head consumption (`get_next_video`). -/
inductive QOp where
  | enq (id : String)
  | deq (id : String)
  | pop
deriving DecidableEq, Repr

/-- Apply one queue operation through the manager's methods. -/
def applyQOp (st : MState) : QOp → MState
  | QOp.enq id => (add_to_queue st id).1
  | QOp.deq id => (remove_from_queue st id).1
  | QOp.pop => (get_next_video st).2.1

/-- Run a sequence of queue operations through the manager. -/
def runQOps (st : MState) (ops : List QOp) : MState :=
  ops.foldl applyQOp st

/-- Specification-side queue order, written from the words of the spec
(section 4.1): `enqueue(id)` is a no-op if `id` is already present and
otherwise appends; `dequeue(id)` removes `id` if present and is a no-op
otherwise; `pop_front()` removes the head.  Used to compare the
implementation's queue against the FIFO order the spec implies. -/
def specQueueStep (q : List String) : QOp → List String
  | QOp.enq id => if id ∈ q then q else q ++ [id]
  | QOp.deq id => q.erase id
  | QOp.pop => q.tail

/-- Specification-side FIFO order implied by a call sequence applied to
an initially empty queue. -/
def specQueueOrder (ops : List QOp) : List String :=
  ops.foldl specQueueStep []

/-- Concrete complete settings dict used in scenario runs. -/
def sdTest : SettingsDict :=
  { rtmp_url := some "u", stream_key := some "k", bitrate := some 2,
    resolution := some "r", fps := some 3 }

/-- Settings dict whose `rtmp_url` key is missing from `settings.json`. -/
def sdNoUrl : SettingsDict :=
  { rtmp_url := none, stream_key := some "k", bitrate := some 2,
    resolution := some "r", fps := some 3 }

/-- Oracle: the video file is missing on disk. -/
def envMissing : VideoEnv := { fileExists := false }

/-- Oracle: the video file exists, spawn succeeds, process exits 0. -/
def envPlayOk : VideoEnv := { now := 7 }

/-- Oracle: the video file exists but `Popen` raises (e.g. missing
ffmpeg binary). -/
def envSpawnFail : VideoEnv := { now := 7, spawnOk := false }

/-- Oracle: the process is terminated externally (skip) and `wait()`
returns a non-zero code. -/
def envKilled : VideoEnv := { now := 7, returncode := -15 }

/-- A manager state mid-playback: session active, a live process handle,
video "a" in flight since time 3, queue holding "b". -/
def stPlaying : MState :=
  { process := some 1
    is_active := true
    current_video_id := some "a"
    start_time := some 3
    queue := ["b"]
    should_stop := false
    spawned_loops := 1 }

/-! Helper lemmas shared by the claim theorems. -/

/-- One queue operation through the manager changes the queue exactly as
the specification-side step does. -/
theorem applyQOp_queue (st : MState) (op : QOp) :
    (applyQOp st op).queue = specQueueStep st.queue op := by
  cases op with
  | enq id =>
    by_cases h : id ∈ st.queue <;> simp [applyQOp, add_to_queue, specQueueStep, h]
  | deq id =>
    by_cases h : id ∈ st.queue <;>
      simp [applyQOp, remove_from_queue, specQueueStep, h, List.erase_of_not_mem]
  | pop =>
    cases hq : st.queue <;> simp [applyQOp, get_next_video, specQueueStep, hq]

/-- The manager queue after a run of operations equals the spec-side fold
started from the manager's initial queue. -/
theorem runQOps_queue (ops : List QOp) (st : MState) :
    (runQOps st ops).queue = ops.foldl specQueueStep st.queue := by
  induction ops generalizing st with
  | nil => rfl
  | cons op ops ih =>
    show (runQOps (applyQOp st op) ops).queue = ops.foldl specQueueStep (specQueueStep st.queue op)
    rw [ih, applyQOp_queue]

/-- Every queue operation preserves duplicate-freedom of the queue. -/
theorem applyQOp_nodup (st : MState) (op : QOp) (h : st.queue.Nodup) :
    (applyQOp st op).queue.Nodup := by
  cases op with
  | enq id =>
    by_cases hm : id ∈ st.queue
    · simp [applyQOp, add_to_queue, hm, h]
    · simp [applyQOp, add_to_queue, hm, List.nodup_append, h]
  | deq id =>
    by_cases hm : id ∈ st.queue <;> simp [applyQOp, remove_from_queue, hm, h, h.erase]
  | pop =>
    cases hq : st.queue with
    | nil => simp [applyQOp, get_next_video, hq, h]
    | cons v rest =>
      have h2 := h
      rw [hq] at h2
      simp only [applyQOp, get_next_video, hq]
      exact (List.nodup_cons.mp h2).2

/-- A run of queue operations preserves duplicate-freedom. -/
theorem runQOps_nodup (ops : List QOp) (st : MState) (h : st.queue.Nodup) :
    (runQOps st ops).queue.Nodup := by
  induction ops generalizing st with
  | nil => exact h
  | cons op ops ih => exact ih (applyQOp st op) (applyQOp_nodup st op h)

/-- With a complete settings dict, `_stream_video` does not raise. -/
theorem streamVideo_ne_none (videoId : String) (sd : SettingsDict)
    (t : Option Nat) (ss : Bool) (env : VideoEnv)
    (hc : settingsComplete sd = true) :
    streamVideo videoId sd t ss env ≠ none := by
  rcases sd with ⟨url, key, br, res, fps⟩
  cases url <;> cases key <;> cases br <;> cases res <;> cases fps <;>
    simp_all [settingsComplete, streamVideo]
  split <;> simp

/-- No trace of a completed `_stream_video` call contains a sleep event:
the pause of line 149 lives in the loop's exception handler, never inside
`_stream_video` (which logs spawn failures and bad exit codes without
pausing). -/
theorem streamVideo_no_sleep (videoId : String) (sd : SettingsDict)
    (t : Option Nat) (ss : Bool) (env : VideoEnv) (b : SVBody) (n : Nat)
    (hb : streamVideo videoId sd t ss env = some b) :
    Ev.sleep n ∉ b.trace := by
  rcases sd with ⟨url, key, br, res, fps⟩
  cases url <;> cases key <;> cases br <;> cases res <;> cases fps <;>
    simp only [streamVideo] at hb
  any_goals exact Option.noConfusion hb
  split at hb <;> rw [Option.some_inj] at hb <;> subst hb
  · simp only [SVBody.trace]
    split <;> simp
  · simp

/-- Whatever makes the loop exit - stop flag, exhausted queue, skipped or
failed entries along the way - the final state has the session fields
reset (the cleanup of source lines 151-155 runs on every exit path). -/
theorem streamLoopGo_resets (sd : SettingsDict) (q : List String)
    (st : MState) (envs : List VideoEnv) :
    (streamLoopGo sd q st envs).1.is_active = false ∧
    (streamLoopGo sd q st envs).1.current_video_id = none ∧
    (streamLoopGo sd q st envs).1.start_time = none := by
  induction q generalizing st envs with
  | nil => by_cases h : st.should_stop <;> simp [streamLoopGo, h, resetSession]
  | cons vid rest ih =>
    by_cases h : st.should_stop
    · simp [streamLoopGo, h, resetSession]
    · by_cases hv : vid = ""
      · simp [streamLoopGo, h, hv, resetSession]
      · simp only [streamLoopGo, h, hv, Bool.false_eq_true, if_false]
        split
        · exact ih _ _
        · split
          · exact ih _ _
          · exact ih _ _

/-- With a complete settings dict, `_stream_video` never raises, so the
loop's exception handler - the only site of `time.sleep` - never runs: no
run of the loop sleeps, whatever spawn failures, missing files or bad
exit codes occur. -/
theorem streamLoopGo_no_sleep (sd : SettingsDict) (hc : settingsComplete sd = true)
    (q : List String) (st : MState) (envs : List VideoEnv) (n : Nat) :
    Ev.sleep n ∉ (streamLoopGo sd q st envs).2 := by
  induction q generalizing st envs with
  | nil => by_cases h : st.should_stop <;> simp [streamLoopGo, h]
  | cons vid rest ih =>
    by_cases h : st.should_stop
    · simp [streamLoopGo, h]
    · by_cases hv : vid = ""
      · simp [streamLoopGo, h, hv]
      · simp only [streamLoopGo, h, hv, Bool.false_eq_true, if_false]
        split
        · simp only [List.mem_cons]
          push_neg
          exact ⟨by simp, by simp, ih _ _⟩
        · split
          · next heq => exact absurd heq (streamVideo_ne_none _ _ _ _ _ hc)
          · next b heq =>
            simp only [List.mem_cons, List.mem_append]
            push_neg
            exact ⟨by simp, streamVideo_no_sleep _ _ _ _ _ _ n heq, ih _ _⟩

/-- With an incomplete settings dict, `_stream_video` raises before any
state mutation. -/
theorem streamVideo_none_of_incomplete (videoId : String) (sd : SettingsDict)
    (t : Option Nat) (ss : Bool) (env : VideoEnv)
    (hc : settingsComplete sd = false) :
    streamVideo videoId sd t ss env = none := by
  rcases sd with ⟨url, key, br, res, fps⟩
  cases url <;> cases key <;> cases br <;> cases res <;> cases fps <;>
    simp_all [settingsComplete, streamVideo]

/-! Claim theorems. -/

/-- Claim C10: for every manager state and clock reading, the status
snapshot returned by `get_status` reports a viewer count of exactly 0;
the `viewerCount` field is a constant placeholder and never reflects any
measurement. -/
theorem viewer_count_always_zero (st : MState) (now : Nat) :
    (get_status st now).viewerCount = 0 := rfl

/-- Claim C9: `POST /stream/start` with an empty queue (and no active
session) fails with the 400 `EmptyQueueError` response and creates no
session: the returned state is the input state unchanged, so no loop
thread is spawned and all session fields keep their idle values. -/
theorem start_empty_queue_rejected (st : MState)
    (h1 : st.is_active = false) (h2 : st.queue = []) :
    startStreamEndpoint st =
      { st := st, trace := [],
        resp := Except.error ⟨400, "Queue is empty. Add videos to queue first."⟩ } := by
  simp [startStreamEndpoint, h1, h2]

/-- Witness for `start_empty_queue_rejected` at the freshly initialised
manager. -/
theorem start_empty_queue_rejected_witness :
    (initManager []).is_active = false ∧ (initManager []).queue = [] ∧
    startStreamEndpoint (initManager []) =
      { st := initManager [], trace := [],
        resp := Except.error ⟨400, "Queue is empty. Add videos to queue first."⟩ } :=
  ⟨rfl, rfl, start_empty_queue_rejected (initManager []) rfl rfl⟩

/-- Claim C1: for every sequence of enqueue / dequeue / pop-front
operations applied to an initially empty queue, the manager's queue never
contains duplicate identifiers, enqueueing an already-present identifier
is a no-op, and the queue reported by `get_status` equals the exact FIFO
order the specification derives from the call sequence. -/
theorem queue_fifo_nodup :
    (∀ (ops : List QOp) (now : Nat),
      (runQOps (initManager []) ops).queue.Nodup ∧
      (get_status (runQOps (initManager []) ops) now).queue = specQueueOrder ops) ∧
    (∀ (st : MState) (id : String), id ∈ st.queue → add_to_queue st id = (st, [])) := by
  constructor
  · intro ops now
    refine ⟨runQOps_nodup ops _ (by simp [initManager]), ?_⟩
    show (runQOps (initManager []) ops).queue = specQueueOrder ops
    rw [runQOps_queue]
    rfl
  · intro st id h
    simp [add_to_queue, h]

/-- Witness for `queue_fifo_nodup` at a concrete call sequence (with a
duplicate enqueue, a pop and a dequeue) and a concrete already-present
enqueue. -/
theorem queue_fifo_nodup_witness :
    ((runQOps (initManager [])
        [QOp.enq "a", QOp.enq "b", QOp.enq "a", QOp.pop, QOp.deq "b"]).queue.Nodup ∧
      (get_status (runQOps (initManager [])
        [QOp.enq "a", QOp.enq "b", QOp.enq "a", QOp.pop, QOp.deq "b"]) 3).queue =
        specQueueOrder [QOp.enq "a", QOp.enq "b", QOp.enq "a", QOp.pop, QOp.deq "b"]) ∧
    ("a" ∈ (initManager ["a", "b"]).queue ∧
      add_to_queue (initManager ["a", "b"]) "a" = (initManager ["a", "b"], [])) :=
  ⟨queue_fifo_nodup.1 [QOp.enq "a", QOp.enq "b", QOp.enq "a", QOp.pop, QOp.deq "b"] 3,
   by simp [initManager],
   queue_fifo_nodup.2 (initManager ["a", "b"]) "a" (by simp [initManager])⟩

/-- Claim C3 (failing-input evaluation): a second `POST /stream/start`
issued after a first successful one - before the spawned loop thread has
begun running - is also accepted, and two stream-loop threads end up
spawned.  The check of line 426/122 is plain check-then-act: it is not
performed under the manager's lock, and `start_stream` never sets the
active flag itself (only the loop body does, later, in `_stream_video`),
so after the first call `is_active` is still false and the second call
passes both checks. -/
theorem double_start_spawns_two_loops :
    (startStreamEndpoint (initManager ["a"])).resp = Except.ok "Stream started successfully" ∧
    (startStreamEndpoint (initManager ["a"])).st.is_active = false ∧
    (startStreamEndpoint ((startStreamEndpoint (initManager ["a"])).st)).resp =
      Except.ok "Stream started successfully" ∧
    (startStreamEndpoint ((startStreamEndpoint (initManager ["a"])).st)).st.spawned_loops = 2 :=
  ⟨rfl, rfl, rfl, rfl⟩

/-- Claim C6 (failing-input evaluation): on a live handle the code does
send the graceful `terminate()`, wait up to 5 time units and escalate to
`kill()` exactly on `TimeoutExpired` (first two conjuncts), but an error
raised by the escalated `kill()` is not caught: it escapes `stop_stream`
(surfacing as a 500 instead of a success response, with the session's
active flag left set because the final cleanup block is skipped) and
likewise escapes `skip_current`. -/
theorem kill_error_propagates_to_caller :
    (stopStreamEndpoint stPlaying TermBehavior.exitsInGrace).trace =
      [Ev.terminate, Ev.wait 5] ∧
    (stopStreamEndpoint stPlaying (TermBehavior.timeoutThenKillRaises "boom")).trace =
      [Ev.terminate, Ev.wait 5, Ev.timeoutExpired, Ev.kill] ∧
    (stopStreamEndpoint stPlaying (TermBehavior.timeoutThenKillRaises "boom")).resp =
      Except.error ⟨500, "Error stopping stream: boom"⟩ ∧
    (stopStreamEndpoint stPlaying (TermBehavior.timeoutThenKillRaises "boom")).st.is_active = true ∧
    (skipEndpoint stPlaying (TermBehavior.timeoutThenKillRaises "boom")).resp =
      Except.error ⟨500, "Error skipping video: boom"⟩ :=
  ⟨rfl, rfl, rfl, rfl, rfl⟩

/-- Claim C8: `skip_current` terminates only the in-flight process and
performs no state mutation at all - in particular no queue mutation, so
the skipped video is never re-enqueued (first conjunct); in a run where
video "a" is killed mid-playback (its `wait` returns a non-zero code)
with queue `["b", "c"]` behind it, the loop advances to "b" with the
queue becoming `["c"]`, and "a" is never attempted again (explicit trace,
second conjunct). -/
theorem skip_no_queue_mutation_and_advance :
    (∀ (st : MState) (tb : TermBehavior), (skipCurrentMgr st tb).st = st) ∧
    streamLoop sdTest (initManager ["a", "b", "c"]) [envKilled, envPlayOk, envPlayOk] =
      (initManager [],
       [Ev.saveQueue ["b", "c"], Ev.logStarting "a",
        Ev.spawn (buildCmd "videos/a" "u" "k" 2 "r" 3), Ev.logFFmpegError "a",
        Ev.saveQueue ["c"], Ev.logStarting "b",
        Ev.spawn (buildCmd "videos/b" "u" "k" 2 "r" 3),
        Ev.saveQueue [], Ev.logStarting "c",
        Ev.spawn (buildCmd "videos/c" "u" "k" 2 "r" 3), Ev.logQueueEmpty]) := by
  constructor
  · intro st tb
    cases hp : st.process <;> cases tb <;> simp [skipCurrentMgr, hp]
  · rfl

/-- Claim C2 (counterexample): with queue `["a", "b"]`, both files
present and the spawn of "a" failing (`Popen` raising), the loop advances
from the failed "a" directly to "b" with no sleep event anywhere in the
trace - the claimed 1-unit pause after a spawn failure does not happen,
because `_stream_video` catches the spawn exception internally and the
loop's `except`-with-sleep branch never runs. -/
theorem spawn_failure_no_pause_cex :
    streamLoop sdTest (initManager ["a", "b"]) [envSpawnFail, envPlayOk] =
      (initManager [],
       [Ev.saveQueue ["b"], Ev.logStarting "a", Ev.spawnFail,
        Ev.saveQueue [], Ev.logStarting "b",
        Ev.spawn (buildCmd "videos/b" "u" "k" 2 "r" 3), Ev.logQueueEmpty]) ∧
    Ev.sleep 1 ∉ (streamLoop sdTest (initManager ["a", "b"]) [envSpawnFail, envPlayOk]).2 :=
  ⟨rfl, by decide⟩

/-- Claim C2 (amended): the loop's 1-unit pause fires exactly when
`_stream_video` itself raises - possible only when the settings snapshot
is missing a required key - in which case the loop logs, sleeps 1, and
advances to the next queue item with the session state otherwise
unchanged (first conjunct: one unfolding step of the loop, for an entry
with a non-empty identifier; an empty-string identifier never reaches
`_stream_video`, since the truthiness test of line 135 breaks the loop
first); with a complete settings snapshot no run of the loop ever
sleeps, so spawn failures and process errors - which are caught and
logged inside `_stream_video` - cause no pause (second conjunct).  In
both cases no in-loop error escapes the loop: the loop continues or
exits cleanly. -/
theorem pause_only_on_raised_exception
    (sd sd2 : SettingsDict) (st st2 : MState) (vid : String) (rest : List String)
    (env : VideoEnv) (envs envs2 : List VideoEnv) (n : Nat)
    (hq : st.queue = vid :: rest) (hv : vid ≠ "") (hss : st.should_stop = false)
    (hf : env.fileExists = true) (hraise : settingsComplete sd = false)
    (hc : settingsComplete sd2 = true) :
    streamLoop sd st (env :: envs) =
      ((streamLoop sd { st with queue := rest } envs).1,
       Ev.saveQueue rest :: Ev.logStreamError vid :: Ev.sleep 1 ::
         (streamLoop sd { st with queue := rest } envs).2) ∧
    Ev.sleep n ∉ (streamLoop sd2 st2 envs2).2 := by
  constructor
  · have hnone : streamVideo vid sd st.start_time false env = none :=
      streamVideo_none_of_incomplete vid sd st.start_time false env hraise
    simp only [streamLoop, hq]
    simp [streamLoopGo, hv, hss, hf, hnone]
  · exact streamLoopGo_no_sleep sd2 hc st2.queue st2 envs2 n

/-- Witness for `pause_only_on_raised_exception`: settings missing the
`rtmp_url` key pause once per attempted item, while complete settings
never sleep even with a failing spawn. -/
theorem pause_only_on_raised_exception_witness :
    ((initManager ["a", "b"]).queue = "a" :: ["b"] ∧
     ("a" : String) ≠ "" ∧
     (initManager ["a", "b"]).should_stop = false ∧
     envPlayOk.fileExists = true ∧
     settingsComplete sdNoUrl = false ∧
     settingsComplete sdTest = true) ∧
    (streamLoop sdNoUrl (initManager ["a", "b"]) (envPlayOk :: [envPlayOk]) =
      ((streamLoop sdNoUrl { initManager ["a", "b"] with queue := ["b"] } [envPlayOk]).1,
       Ev.saveQueue ["b"] :: Ev.logStreamError "a" :: Ev.sleep 1 ::
         (streamLoop sdNoUrl { initManager ["a", "b"] with queue := ["b"] } [envPlayOk]).2) ∧
     Ev.sleep 1 ∉ (streamLoop sdTest (initManager ["a"]) [envSpawnFail]).2) :=
  ⟨⟨rfl, by decide, rfl, rfl, rfl, rfl⟩,
   pause_only_on_raised_exception sdNoUrl sdTest (initManager ["a", "b"])
     (initManager ["a"]) "a" ["b"] envPlayOk [envPlayOk] [envSpawnFail] 1
     rfl (by decide) rfl rfl rfl rfl⟩

/-- Claim C7: a queue entry with a non-empty identifier whose backing
file is missing when the loop reaches it is logged and skipped without
terminating the session: one loop step pops it, emits the not-found log,
and continues with the rest of the queue and every session field
unchanged (first conjunct).  An empty-string identifier never reaches
the file-existence check at all - the truthiness test of line 135 breaks
the loop first, and its backing path (`videos/` itself) exists anyway -
so such entries are outside the claim's premise.  In the concrete
`["a", "b"]` scenario with "a" missing on disk the loop goes on to
attempt "b" (its start log and ffmpeg spawn appear in the trace) and
only exits after the whole queue is drained (second conjunct). -/
theorem missing_file_skipped_session_continues
    (sd : SettingsDict) (st : MState) (vid : String) (rest : List String)
    (env : VideoEnv) (envs : List VideoEnv)
    (hq : st.queue = vid :: rest) (hv : vid ≠ "") (hss : st.should_stop = false)
    (hf : env.fileExists = false) :
    streamLoop sd st (env :: envs) =
      ((streamLoop sd { st with queue := rest } envs).1,
       Ev.saveQueue rest :: Ev.logNotFound vid ::
         (streamLoop sd { st with queue := rest } envs).2) ∧
    streamLoop sdTest (initManager ["a", "b"]) [envMissing, envPlayOk] =
      (initManager [],
       [Ev.saveQueue ["b"], Ev.logNotFound "a", Ev.saveQueue [],
        Ev.logStarting "b", Ev.spawn (buildCmd "videos/b" "u" "k" 2 "r" 3),
        Ev.logQueueEmpty]) := by
  constructor
  · simp only [streamLoop, hq]
    simp [streamLoopGo, hv, hss, hf]
  · rfl

/-- Witness for `missing_file_skipped_session_continues` at the concrete
`["a", "b"]` queue with "a" missing on disk. -/
theorem missing_file_skipped_session_continues_witness :
    ((initManager ["a", "b"]).queue = "a" :: ["b"] ∧
     ("a" : String) ≠ "" ∧
     (initManager ["a", "b"]).should_stop = false ∧
     envMissing.fileExists = false) ∧
    streamLoop sdTest (initManager ["a", "b"]) (envMissing :: [envPlayOk]) =
      ((streamLoop sdTest { initManager ["a", "b"] with queue := ["b"] } [envPlayOk]).1,
       Ev.saveQueue ["b"] :: Ev.logNotFound "a" ::
         (streamLoop sdTest { initManager ["a", "b"] with queue := ["b"] } [envPlayOk]).2) :=
  ⟨⟨rfl, by decide, rfl, rfl⟩,
   (missing_file_skipped_session_continues sdTest (initManager ["a", "b"]) "a" ["b"]
     envMissing [envPlayOk] rfl (by decide) rfl rfl).1⟩

/-- Claim C4: whenever `POST /stream/stop` on an active session returns
its success response, the resulting state reports `isActive = false` in
the status snapshot and holds no process handle; an immediate
`POST /stream/start` on that state with a non-empty queue succeeds; and a
second `POST /stream/stop` fails with the 400 `NotActiveError` response
while changing nothing - same state, empty trace. -/
theorem stop_then_start_and_double_stop (st : MState) (tb tb2 : TermBehavior) (now : Nat)
    (hA : st.is_active = true)
    (hret : (stopStreamEndpoint st tb).resp = Except.ok "Stream stopped successfully") :
    (get_status (stopStreamEndpoint st tb).st now).isActive = false ∧
    (stopStreamEndpoint st tb).st.process = none ∧
    ((stopStreamEndpoint st tb).st.queue ≠ [] →
      (startStreamEndpoint (stopStreamEndpoint st tb).st).resp =
        Except.ok "Stream started successfully") ∧
    (stopStreamEndpoint (stopStreamEndpoint st tb).st tb2).resp =
      Except.error ⟨400, "No active stream to stop"⟩ ∧
    (stopStreamEndpoint (stopStreamEndpoint st tb).st tb2).st =
      (stopStreamEndpoint st tb).st ∧
    (stopStreamEndpoint (stopStreamEndpoint st tb).st tb2).trace = [] := by
  have key : (stopStreamEndpoint st tb).st.is_active = false ∧
      (stopStreamEndpoint st tb).st.process = none := by
    cases hp : st.process <;> cases tb <;>
      simp_all [stopStreamEndpoint, stopStreamMgr, resetSession, hA]
  obtain ⟨k1, k2⟩ := key
  have stop2 : stopStreamEndpoint (stopStreamEndpoint st tb).st tb2 =
      { st := (stopStreamEndpoint st tb).st, trace := [],
        resp := Except.error ⟨400, "No active stream to stop"⟩ } := by
    rw [stopStreamEndpoint]
    simp [k1]
  refine ⟨by simp [get_status, k1], k2, ?_, ?_, ?_, ?_⟩
  · intro hne
    simp [startStreamEndpoint, startStreamMgr, k1, List.isEmpty_iff, hne]
  · rw [stop2]
  · rw [stop2]
  · rw [stop2]

/-- Witness for `stop_then_start_and_double_stop`: stopping the concrete
mid-playback state, where the process exits within the grace period. -/
theorem stop_then_start_and_double_stop_witness :
    (stPlaying.is_active = true ∧
     (stopStreamEndpoint stPlaying TermBehavior.exitsInGrace).resp =
       Except.ok "Stream stopped successfully") ∧
    ((get_status (stopStreamEndpoint stPlaying TermBehavior.exitsInGrace).st 9).isActive = false ∧
     (stopStreamEndpoint stPlaying TermBehavior.exitsInGrace).st.process = none ∧
     ((stopStreamEndpoint stPlaying TermBehavior.exitsInGrace).st.queue ≠ [] →
       (startStreamEndpoint (stopStreamEndpoint stPlaying TermBehavior.exitsInGrace).st).resp =
         Except.ok "Stream started successfully") ∧
     (stopStreamEndpoint (stopStreamEndpoint stPlaying TermBehavior.exitsInGrace).st
        TermBehavior.exitsInGrace).resp =
       Except.error ⟨400, "No active stream to stop"⟩ ∧
     (stopStreamEndpoint (stopStreamEndpoint stPlaying TermBehavior.exitsInGrace).st
        TermBehavior.exitsInGrace).st =
       (stopStreamEndpoint stPlaying TermBehavior.exitsInGrace).st ∧
     (stopStreamEndpoint (stopStreamEndpoint stPlaying TermBehavior.exitsInGrace).st
        TermBehavior.exitsInGrace).trace = []) :=
  ⟨⟨rfl, rfl⟩,
   stop_then_start_and_double_stop stPlaying TermBehavior.exitsInGrace
     TermBehavior.exitsInGrace 9 rfl rfl⟩

/-- Claim C5: whenever the stream loop exits - for any reason and from
any starting state - the final state has `active = false`, no current
video and no start time, and `get_status` on it reports the textual
status "idle" with uptime 0; while a session is active with start time
`t > 0` (as set from a wall-clock reading), `get_status` reports
"streaming" and uptime `now - t` in whole time units. -/
theorem loop_exit_resets_and_status_reports
    (sd : SettingsDict) (st stA : MState) (envs : List VideoEnv) (now t : Nat)
    (hA : stA.is_active = true) (hT : stA.start_time = some t) (ht : 0 < t) :
    (streamLoop sd st envs).1.is_active = false ∧
    (streamLoop sd st envs).1.current_video_id = none ∧
    (streamLoop sd st envs).1.start_time = none ∧
    (get_status (streamLoop sd st envs).1 now).status = "idle" ∧
    (get_status (streamLoop sd st envs).1 now).uptime = 0 ∧
    (get_status stA now).status = "streaming" ∧
    (get_status stA now).uptime = (now : Int) - (t : Int) := by
  obtain ⟨r1, r2, r3⟩ := streamLoopGo_resets sd st.queue st envs
  refine ⟨r1, r2, r3, ?_, ?_, ?_, ?_⟩
  · simp [streamLoop, get_status, r1]
  · simp [streamLoop, get_status, r3]
  · simp [get_status, hA]
  · simp [get_status, hT, ht.ne']

/-- Witness for `loop_exit_resets_and_status_reports`: a full loop run
over queue `["a"]` and the concrete active state with start time 3 read
at clock 9. -/
theorem loop_exit_resets_and_status_reports_witness :
    (stPlaying.is_active = true ∧ stPlaying.start_time = some 3 ∧ 0 < 3) ∧
    ((streamLoop sdTest (initManager ["a"]) [envPlayOk]).1.is_active = false ∧
     (streamLoop sdTest (initManager ["a"]) [envPlayOk]).1.current_video_id = none ∧
     (streamLoop sdTest (initManager ["a"]) [envPlayOk]).1.start_time = none ∧
     (get_status (streamLoop sdTest (initManager ["a"]) [envPlayOk]).1 9).status = "idle" ∧
     (get_status (streamLoop sdTest (initManager ["a"]) [envPlayOk]).1 9).uptime = 0 ∧
     (get_status stPlaying 9).status = "streaming" ∧
     (get_status stPlaying 9).uptime = (9 : Int) - (3 : Int)) :=
  ⟨⟨rfl, rfl, by decide⟩,
   loop_exit_resets_and_status_reports sdTest (initManager ["a"]) stPlaying
     [envPlayOk] 9 3 rfl rfl (by decide)⟩
